import Mathlib

/-!
Verification of `tinynn/converter/operators/torch/base.py`.

The Python source is shallowly embedded: pure numeric helpers become Lean
functions on `ℤ`/`ℚ`; the mutation of converter state (name counters, fresh
tensor allocation) is threaded explicitly through a `Converter` record;
Python object allocation of `tfl.Tensor` is modelled by an allocation
counter `nextId` (a freshly constructed Python object is distinct from every
previously existing one); code that can raise returns `Except String`.
Python `int` arithmetic is exact, so it maps directly to `ℤ`; the spatial
sizes fed to `math.ceil(a / float(b))` are small integers for which binary64
division has an exact ceiling, so it is modelled as exact integer ceiling
division.
-/

namespace TinyNN

/-- Integer ceiling division for a positive divisor; models Python
`int(math.ceil(a / float(b)))` on exact integer inputs (Lean `Int` `/` is
floor division for positive divisors, like Python `//`). -/
def ceilDiv (a b : ℤ) : ℤ := -(-a / b)

/-- Embedding of `get_pool_ceil_padding(input, kernel_size, stride, padding)`
(base.py lines 433-456).  The tensor argument only contributes its shape, so
the model takes `sizes = input.shape` directly.  Each staged list mirrors one
list comprehension of the source. -/
def get_pool_ceil_padding (sizes kernel_size stride padding : List ℤ) : List ℤ :=
  let dim := sizes.drop (sizes.length - padding.length)
  let ceiled_output_dim0 := (List.range padding.length).map (fun i =>
    ceilDiv (dim.getD i 0 + 2 * padding.getD i 0 - kernel_size.getD i 0) (stride.getD i 0) + 1)
  let ceiled_output_dim := (List.range ceiled_output_dim0.length).map (fun i =>
    if (ceiled_output_dim0.getD i 0 - 1) * stride.getD i 0 ≥ dim.getD i 0 + padding.getD i 0
    then ceiled_output_dim0.getD i 0 - 1 else ceiled_output_dim0.getD i 0)
  let padding_ceil := (List.range padding.length).map (fun i =>
    if stride.getD i 0 = 1 then 0
    else kernel_size.getD i 0 -
      (dim.getD i 0 + 2 * padding.getD i 0 - ((ceiled_output_dim.getD i 0 - 1) * stride.getD i 0 + 1)))
  (List.range padding_ceil.length).map (fun i =>
    if padding_ceil.getD i 0 + 2 * padding.getD i 0 ≥ kernel_size.getD i 0
    then (if padding_ceil.getD i 0 < kernel_size.getD i 0 - 1
          then padding_ceil.getD i 0 else kernel_size.getD i 0 - 1)
    else padding_ceil.getD i 0)

/-- The spec's per-dimension output-size formula, amended to the ceiling
division the source actually performs: `out = ceil((s + 2p - k)/t) + 1`,
decremented when the last window would start outside the input. -/
def ceil_output_dim_spec (s p k t : ℤ) : ℤ :=
  let out := ceilDiv (s + 2 * p - k) t + 1
  if (out - 1) * t ≥ s + p then out - 1 else out

/-- The spec's per-dimension extra-ceil-padding formula (with the amended
ceiling division): `extra = 0` when `t = 1`, else
`k - (s + 2p - ((out-1)t + 1))`, clamped to `k-1` when `extra + 2p ≥ k`. -/
def ceil_extra_pad_spec (s p k t : ℤ) : ℤ :=
  let out := ceil_output_dim_spec s p k t
  let extra := if t = 1 then 0 else k - (s + 2 * p - ((out - 1) * t + 1))
  if extra + 2 * p ≥ k then (if extra < k - 1 then extra else k - 1) else extra

/-- The claim's per-dimension formula exactly as stated, with *floor*
division: `out = floor((s + 2p - k)/t) + 1` and the same subsequent steps. -/
def floor_extra_pad_claim (s p k t : ℤ) : ℤ :=
  let out0 := (s + 2 * p - k) / t + 1
  let out := if (out0 - 1) * t ≥ s + p then out0 - 1 else out0
  let extra := if t = 1 then 0 else k - (s + 2 * p - ((out - 1) * t + 1))
  if extra + 2 * p ≥ k then (if extra < k - 1 then extra else k - 1) else extra

/-- The IEEE-754 binary32 exponent field of a positive value, idealized to
exact arithmetic: `127 + ⌊log₂ m⌋` clamped to `[0, 255]` (subnormals read 0,
overflow to infinity reads 255).  Models `fp32_to_bits(m) >> 23`
(base.py lines 428-430) for positive `m`. -/
def fp32_exponent_field (m : ℚ) : ℤ := max 0 (min 255 (127 + Int.log 2 m))

/-- The right shift derived in `rescale_weight_scale_for_qnnpack`
(base.py line 212): `127 + 31 - 32 - exponent(input.scale * weight.scale /
output.scale)`. -/
def qnnpack_shift (input_scale weight_scale output_scale : ℚ) : ℤ :=
  127 + 31 - 32 - fp32_exponent_field (input_scale * weight_scale / output_scale)

/-- The body of the `while True` loop of `rescale_weight_scale_for_qnnpack`
(base.py lines 209-217), iterated on an explicit fuel: while the derived
shift is at least 32, multiply the weight scale by 10 and recompute.  The
fuel only bounds the number of iterations; `rescale_loop_fuel_irrel` below
shows the value is the same for every fuel at least `rescale_fuel_bound`,
so this is the value the source's unbounded loop terminates with. -/
def rescale_loop_fuel (input_scale output_scale : ℚ) : ℕ → ℚ → ℚ
  | 0, w => w
  | n + 1, w =>
    if 32 ≤ qnnpack_shift input_scale w output_scale then
      rescale_loop_fuel input_scale output_scale n (w * 10)
    else w

/-- Upper bound on the number of iterations of the rescale loop: each pass
multiplies the combined multiplier by 10, raising its base-2 logarithm by at
least 3, and the loop runs only while `127 + log₂ m ≤ 94`. -/
def rescale_fuel_bound (input_scale output_scale w : ℚ) : ℕ :=
  (95 - (127 + Int.log 2 (input_scale * w / output_scale))).toNat

/-- Embedding of `rescale_weight_scale_for_qnnpack` (base.py lines 206-220),
restricted to its numeric effect: the final value of
`weight_tensor.quantization.scale`. -/
def rescale_weight_scale_for_qnnpack (input_scale weight_scale output_scale : ℚ) : ℚ :=
  rescale_loop_fuel input_scale output_scale
    (rescale_fuel_bound input_scale output_scale weight_scale) weight_scale

inductive DType
  | float32
  | uint8
  | int8
  | int32
  | int64
deriving DecidableEq, Inhabited

/-- A quantization record attached to a tensor binding. -/
structure QuantParams where
  scale : ℚ
  zero_point : ℤ
deriving DecidableEq

/-- Concrete payload of a tensor: integer arrays (permutations, shapes, pad
amounts), floating arrays, or a fake-quantized array with its parameters. -/
inductive TensorData
  | null
  | ints (l : List ℤ)
  | rats (l : List ℚ)
  | fakeQuant (codes : List ℤ) (scale : ℚ) (zero_point : ℤ)
deriving DecidableEq, Inhabited

/-- A `tfl.Tensor` binding.  `id` models Python object identity: every
constructor call yields a tensor whose `id` is the converter's allocation
counter at that moment, so distinct allocations are distinct tensors. -/
structure Tensor where
  id : ℕ
  name : String
  shape : List ℕ
  dtype : DType
  has_buffer : Bool
  quantization : Option QuantParams
  data : TensorData
deriving DecidableEq

instance : Inhabited Tensor := ⟨⟨0, "", [], .float32, false, Option.none, .null⟩⟩

inductive OpKind
  | Dequantize
  | Quantize
  | Transpose
  | Reshape
  | Pad
  | Padv2
  | MaxPool2d
  | AvgPool2d
  | Other (s : String)
deriving DecidableEq, Inhabited

/-- The pooling attributes read off `ops[1]` by `handle_padding`. -/
structure PoolParams where
  filterHeight : ℤ
  filterWidth : ℤ
  strideH : ℤ
  strideW : ℤ
deriving DecidableEq

/-- A target (`tfl`) operator: a kind, ordered input and output tensors,
and the op-specific parameters used by the modelled helpers. -/
structure Op where
  kind : OpKind
  inputs : List Tensor
  outputs : List Tensor
  pool : Option PoolParams := Option.none
  reshapeTarget : Option (List ℕ) := Option.none
deriving DecidableEq

instance : Inhabited Op := ⟨⟨.Other "", [], [], Option.none, Option.none⟩⟩

/-- A source-side (torch) tensor: the converter only reads its shape, dtype
and values. -/
structure RawTensor where
  shape : List ℕ
  dtype : DType
  vals : List ℚ
deriving DecidableEq

instance : Inhabited RawTensor := ⟨⟨[], .float32, []⟩⟩

/-- Per-node converter state (`OperatorConverter.__init__`, base.py lines
20-29) plus the allocation counter `nextId` modelling Python object
identity of freshly constructed `tfl.Tensor`s. -/
structure Converter where
  input_names : List String
  output_names : List String
  input_tensors : List RawTensor
  output_tensors : List RawTensor
  attr_count : ℕ
  transform_count : ℕ
  asymmetric : Bool
  nextId : ℕ
deriving DecidableEq

/-- Embedding of `get_unique_attr_name` (base.py lines 172-178). -/
def get_unique_attr_name (c : Converter) : String × Converter :=
  let name := if c.attr_count = 0 then c.output_names.getD 0 ("") ++ "_attr"
    else c.output_names.getD 0 ("") ++ "_attr_" ++ toString c.attr_count
  (name, { c with attr_count := c.attr_count + 1 })

/-- Embedding of `get_unique_transform_name` (base.py lines 180-186). -/
def get_unique_transform_name (c : Converter) : String × Converter :=
  let name := if c.transform_count = 0 then c.output_names.getD 0 ("") ++ "_transform"
    else c.output_names.getD 0 ("") ++ "_transform_" ++ toString c.transform_count
  (name, { c with transform_count := c.transform_count + 1 })

/-- Embedding of `create_transform_tensor` (base.py lines 188-191): a fresh tensor with
`has_buffer = False` and the given quantization. -/
def create_transform_tensor (c : Converter) (shape : List ℕ) (dtype : DType)
    (data : TensorData) (quantization : Option QuantParams) : Tensor × Converter :=
  let nc := get_unique_transform_name c
  (⟨nc.2.nextId, nc.1, shape, dtype, false, quantization, data⟩,
   { nc.2 with nextId := nc.2.nextId + 1 })

/-- Embedding of `create_attr_tensor` (base.py lines 193-196): a fresh tensor with
`has_buffer = True`. -/
def create_attr_tensor (c : Converter) (shape : List ℕ) (dtype : DType)
    (data : TensorData) : Tensor × Converter :=
  let nc := get_unique_attr_name c
  (⟨nc.2.nextId, nc.1, shape, dtype, true, Option.none, data⟩,
   { nc.2 with nextId := nc.2.nextId + 1 })

/-- Models `numpy_array.astype('float32')` on the payload. -/
def astype_float32 : TensorData → TensorData
  | .null => .null
  | .ints l => .rats (l.map (fun z => (z : ℚ)))
  | .rats l => .rats l
  | .fakeQuant codes _ _ => .rats (codes.map (fun z => (z : ℚ)))

/-- The endpoint mutations shared verbatim by the three wrappers
(`ops[0].inputs[input_idx] = new_input; ops[-1].outputs[output_idx] =
new_output`).  Written as two sequential list updates, which also captures
Python's aliasing when `ops` has a single element (both updates hit it). -/
def rewire_endpoints (ops : List Op) (input_idx output_idx : ℕ)
    (new_input new_output : Tensor) : List Op :=
  let ops1 := ops.set 0
    { ops.getD 0 default with inputs := (ops.getD 0 default).inputs.set input_idx new_input }
  ops1.set (ops1.length - 1)
    { ops1.getD (ops1.length - 1) default with
      outputs := (ops1.getD (ops1.length - 1) default).outputs.set output_idx new_output }

/-- Embedding of `wrap_ops_with_dequant_quants` (base.py lines 263-276). -/
def wrap_ops_with_dequant_quants (c : Converter) (ops : List Op)
    (input_idx output_idx : ℕ) : List Op × Converter :=
  let orig_input := (ops.getD 0 default).inputs.getD input_idx default
  let orig_output := (ops.getD (ops.length - 1) default).outputs.getD output_idx default
  let r1 := create_transform_tensor c orig_input.shape .float32
    (astype_float32 orig_input.data) Option.none
  let new_input := r1.1
  let r2 := create_transform_tensor r1.2 orig_output.shape .float32
    (astype_float32 orig_output.data) Option.none
  let new_output := r2.1
  let dequant_op : Op := { kind := .Dequantize, inputs := [orig_input], outputs := [new_input] }
  let quant_op : Op := { kind := .Quantize, inputs := [new_output], outputs := [orig_output] }
  ([dequant_op] ++ rewire_endpoints ops input_idx output_idx new_input new_output ++ [quant_op],
   r2.2)

/-- Models `np.transpose(a, axes)` at the shape level: `new_shape[k] = shape[axes[k]]`. -/
def permute_shape (axes : List ℤ) (shape : List ℕ) : List ℕ :=
  axes.map (fun a => shape.getD a.toNat 0)

/-- Composite axes of two chained `np.transpose` calls:
`transpose(transpose(a, p), q) = transpose(a, compose p q)` where
`(compose p q)[k] = p[q[k]]`. -/
def perm_compose (p q : List ℤ) : List ℤ := q.map (fun j => p.getD j.toNat 0)

/-- The permutation `[0, 2, 3, 1]` (channel-first to channel-last) as a
bijection on axis indices. -/
def perm0231 : Equiv.Perm (Fin 4) :=
  ⟨![0, 2, 3, 1], ![0, 3, 1, 2], by intro x; fin_cases x <;> rfl,
    by intro x; fin_cases x <;> rfl⟩

/-- The permutation `[0, 3, 1, 2]` (channel-last to channel-first) as a
bijection on axis indices. -/
def perm0312 : Equiv.Perm (Fin 4) :=
  ⟨![0, 3, 1, 2], ![0, 2, 3, 1], by intro x; fin_cases x <;> rfl,
    by intro x; fin_cases x <;> rfl⟩

/-- Models `np.transpose` on a rank-4 array viewed as a function of its multi-index:
axis `axes[k]` of the source becomes axis `k` of the result, so entry `i` of
the result is the source entry whose index at position `p` is `i (axes.symm
p)`. -/
def npTranspose4 (axes : Equiv.Perm (Fin 4)) (a : (Fin 4 → ℕ) → ℚ) :
    (Fin 4 → ℕ) → ℚ :=
  fun idx => a (fun p => idx (axes.symm p))

/-- Embedding of `wrap_ops_with_nhwc_nchw_transposes` (base.py lines
301-322).  `np.transpose` permutes the example payload; the model tracks the
resulting shape and keeps the payload reference. -/
def wrap_ops_with_nhwc_nchw_transposes (c : Converter) (ops : List Op)
    (input_idx output_idx : ℕ) : List Op × Converter :=
  let orig_input := (ops.getD 0 default).inputs.getD input_idx default
  let orig_output := (ops.getD (ops.length - 1) default).outputs.getD output_idx default
  let nhwc2nchw_perm : List ℤ := [0, 3, 1, 2]
  let nchw2nhwc_perm : List ℤ := [0, 2, 3, 1]
  let r1 := create_attr_tensor c [4] .int32 (.ints nhwc2nchw_perm)
  let nhwc2nchw_perm_tensor := r1.1
  let r2 := create_attr_tensor r1.2 [4] .int32 (.ints nchw2nhwc_perm)
  let nchw2nhwc_perm_tensor := r2.1
  let r3 := create_transform_tensor r2.2 (permute_shape nchw2nhwc_perm orig_input.shape)
    orig_input.dtype orig_input.data orig_input.quantization
  let new_input := r3.1
  let r4 := create_transform_tensor r3.2 (permute_shape nchw2nhwc_perm orig_output.shape)
    orig_output.dtype orig_output.data orig_output.quantization
  let new_output := r4.1
  let nchw2nhwc_transpose : Op :=
    ⟨.Transpose, [orig_input, nchw2nhwc_perm_tensor], [new_input], Option.none, Option.none⟩
  let nhwc2nchw_transpose : Op :=
    ⟨.Transpose, [new_output, nhwc2nchw_perm_tensor], [orig_output], Option.none, Option.none⟩
  ([nchw2nhwc_transpose] ++
    rewire_endpoints ops input_idx output_idx new_input new_output ++
    [nhwc2nchw_transpose], r4.2)

/-- The Python expression `torch.dtype == torch.float32` exactly as written
in `quantize_scalar_tensor` (base.py line 375): it compares the dtype
*class* object `torch.dtype` against the dtype *instance* `torch.float32`,
which is `False` on every call (the surrounding code clearly intends
`tensor.dtype == torch.float32`). -/
def torch_dtype_eq_float32 : Bool := false

/-- Result of `torch.quantize_per_tensor(tensor, scale, zero_point, dtype)`:
the original values together with the chosen quantization parameters. -/
structure PerTensorQuantized where
  vals : List ℚ
  scale : ℚ
  zero_point : ℤ
  qdtype : DType
deriving DecidableEq

/-- Embedding of `quantize_scalar_tensor` (base.py lines 373-390).  `numel`
is the number of values; `is_nonzero()` on a one-element tensor tests the
value against zero; `(torch.sign(tensor) < 0).all()` tests negativity. -/
def quantize_scalar_tensor (asymmetric : Bool) (t : RawTensor) :
    Except String PerTensorQuantized :=
  if ¬ t.vals.length = 1 then .error ("assert tensor.numel() == 1")
  else if ¬ torch_dtype_eq_float32 then .error ("assert torch.dtype == torch.float32")
  else if ¬ t.vals.getD 0 0 ≠ 0 then
    (if asymmetric then .ok ⟨t.vals, 0.5, 128, .uint8⟩
     else .ok ⟨t.vals, 0.5, 0, .int8⟩)
  else if t.vals.getD 0 0 < 0 then
    (if asymmetric then .ok ⟨t.vals, -(t.vals.getD 0 0) / 127, 255, .uint8⟩
     else .ok ⟨t.vals, -(t.vals.getD 0 0) / 127, 0, .int8⟩)
  else
    (if asymmetric then .ok ⟨t.vals, t.vals.getD 0 0 / 127, 0, .uint8⟩
     else .ok ⟨t.vals, t.vals.getD 0 0 / 127, 0, .int8⟩)

/-- Models `tfl.FakeQuantTensor`: a quantized code array together with its scale
and zero point. -/
structure FakeQuantTensor where
  codes : List ℤ
  scale : ℚ
  zero_point : ℤ
deriving DecidableEq

/-- Models `torch.round`: round half to even (banker's rounding). -/
def roundHalfEven (x : ℚ) : ℤ :=
  if 2 * (x - ⌊x⌋) = 1 then (if 2 ∣ ⌊x⌋ then ⌊x⌋ else ⌊x⌋ + 1) else round x

/-- Integer range of a dtype, `torch.iinfo(dtype)`. -/
structure IInfo where
  min : ℤ
  max : ℤ
deriving DecidableEq

/-- Models `torch.iinfo(dtype)`: integer dtype ranges; `none` for floating dtypes,
where torch raises `TypeError`. -/
def iinfoOf : DType → Option IInfo
  | .uint8 => some ⟨0, 255⟩
  | .int8 => some ⟨-128, 127⟩
  | .int32 => some ⟨-(2 ^ 31), 2 ^ 31 - 1⟩
  | .int64 => some ⟨-(2 ^ 63), 2 ^ 63 - 1⟩
  | .float32 => Option.none

/-- Modelled from the spec: the float-to-integer cast `.to(dtype=dtype)` is
external torch code, not part of this repository; the spec states that
out-of-range values "are clamped by the cast". -/
def cast_clamp (type_info : IInfo) (z : ℤ) : ℤ := max type_info.min (min type_info.max z)

/-- Embedding of `quantize` (base.py lines 222-230): round
`value / scale + zero_point` (half to even, `torch.round`), emit a
non-fatal overflow and/or underflow warning when a rounded value exceeds
the dtype range, cast to the dtype, and return a `FakeQuantTensor`.
Warnings are returned as data (`warnings.warn` does not interrupt). -/
def quantize (vals : List ℚ) (scale : ℚ) (zero_point : ℤ) (dtype : DType) :
    Except String (List String × FakeQuantTensor) :=
  match iinfoOf dtype with
  | Option.none => .error ("TypeError: torch.iinfo() requires an integer input type")
  | some type_info =>
    let q := vals.map (fun v => roundHalfEven (v / scale + zero_point))
    let warns :=
      (if q.any (fun z => decide (type_info.max < z))
       then [("Overflow while quantizing the tensor")] else []) ++
      (if q.any (fun z => decide (z < type_info.min))
       then [("Underflow while quantizing the tensor")] else [])
    .ok (warns, ⟨q.map (cast_clamp type_info), scale, zero_point⟩)

/-- The claim's quantization formula exactly as stated:
`round(value/scale) + zero_point`, the rounding applied *before* the zero
point is added. -/
def quantize_claim_code (v s : ℚ) (zp : ℤ) : ℤ := roundHalfEven (v / s) + zp

/-- Models `np.finfo(np.float32).min`: the most negative finite binary32 value,
`-(2 - 2⁻²³) · 2¹²⁷ = -(2¹²⁸ - 2¹⁰⁴)`. -/
def float32_min : ℚ := -(2 ^ 128 - 2 ^ 104)

/-- Shape of `np.pad(a, pad)`: each dimension grows by its two pad widths. -/
def pad_shape (shape : List ℕ) (pad : List (ℕ × ℕ)) : List ℕ :=
  List.zipWith (fun s pq => pq.1 + s + pq.2) shape pad

/-- A numpy/torch shape (list of `ℕ` sizes) viewed as the `ℤ` sizes fed to
`get_pool_ceil_padding`. -/
def intShape (shape : List ℕ) : List ℤ := shape.map (fun n => (n : ℤ))

/-- The divisibility test of `handle_padding` (base.py line 334):
`all((i + 2*p - k) % s == 0 for i, p, k, s in zip(input_size, padding,
kernel_size, stride))`.  When false, the naive padding under-covers the
window and ceil padding is required. -/
def windows_fit_evenly (input_size padding kernel_size stride : List ℤ) : Bool :=
  ((input_size.zip padding).zip (kernel_size.zip stride)).all
    (fun x => decide ((x.1.1 + 2 * x.1.2 - x.2.1) % x.2.2 = 0))

/-- Embedding of `handle_padding` (base.py lines 324-371).  Reading the
pooling attributes (`filterHeight`, …) off a non-pooling `ops[1]` raises
`AttributeError` in Python and is an error here; the failed
`assert type(ops[1]) == tfl.MaxPool2dOperator` is the modelled
`AssertionError`.  The `ceil_pad` amounts are `ℤ` (they appear verbatim in
the pad attr payload) and are clamped by `Int.toNat` only where they size a
numpy shape.  Transform-tensor payloads track the shape and keep the data
reference; only the shape is inspected downstream. -/
def handle_padding (c : Converter) (pad_h pad_w : ℕ) (pad_op_index : ℕ)
    (ops : List Op) (ceil_mode : Bool) : Except String (List Op × Converter) := do
  let fcp : Option (List ℤ) ←
    if ceil_mode then do
      let input_tensor := (ops.getD 0 default).inputs.getD 0 default
      let pool ← match (ops.getD 1 default).pool with
        | Option.none => Except.error ("AttributeError: op has no attribute filterHeight")
        | some pp => Except.ok pp
      let kernel_size : List ℤ := [pool.filterHeight, pool.filterWidth]
      let stride : List ℤ := [pool.strideH, pool.strideW]
      let padding : List ℤ := [(pad_h : ℤ), (pad_w : ℤ)]
      let input_size : List ℤ :=
        [(input_tensor.shape.getD 2 0 : ℤ), (input_tensor.shape.getD 3 0 : ℤ)]
      if ¬ windows_fit_evenly input_size padding kernel_size stride then
        (if ¬ (ops.getD 1 default).kind = OpKind.MaxPool2d then
          Except.error ("ceil_mode=False for AvgPool not supported")
        else do
          let ceil_pad0 := get_pool_ceil_padding
            (intShape input_tensor.shape) kernel_size stride padding
          Except.ok (some (List.zipWith (fun a b => a + b) ceil_pad0 padding)))
      else Except.ok Option.none
    else Except.ok Option.none
  let st2 : List Op × Converter :=
    if 0 < pad_h + pad_w then
      let pad : List (ℕ × ℕ) := [(0, 0), (pad_h, pad_h), (pad_w, pad_w), (0, 0)]
      let r1 := create_attr_tensor c [4, 2] .int32
        (.ints [0, 0, (pad_h : ℤ), (pad_h : ℤ), (pad_w : ℤ), (pad_w : ℤ), 0, 0])
      let pad_tensor := r1.1
      let pad_input := (ops.getD (pad_op_index - 1) default).outputs.getD 0 default
      let r2 := create_transform_tensor r1.2 (pad_shape pad_input.shape pad)
        pad_input.dtype pad_input.data pad_input.quantization
      let pad_out := r2.1
      let ops1 := ops.set pad_op_index
        { ops.getD pad_op_index default with
          inputs := (ops.getD pad_op_index default).inputs.set 0 pad_out }
      let pad_op : Op := ⟨.Pad, [pad_input, pad_tensor], [pad_out], Option.none, Option.none⟩
      (ops1.insertIdx pad_op_index pad_op, r2.2)
    else (ops, c)
  match fcp with
  | Option.none => Except.ok st2
  | some ceil_pad => do
    let ops2 := st2.1
    let c2 := st2.2
    let fill_nan_index := if 0 < pad_h + pad_w then pad_op_index + 1 else pad_op_index
    let pad : List (ℕ × ℕ) :=
      [(0, 0), (0, (ceil_pad.getD 0 0).toNat), (0, (ceil_pad.getD 1 0).toNat), (0, 0)]
    let r1 := create_attr_tensor c2 [4, 2] .int32
      (.ints [0, 0, 0, ceil_pad.getD 0 0, 0, ceil_pad.getD 1 0, 0, 0])
    let pad_tensor := r1.1
    let pad_input := (ops2.getD (fill_nan_index - 1) default).outputs.getD 0 default
    let constant_data : TensorData :=
      match pad_input.quantization with
      | some q => .fakeQuant [0] q.scale q.zero_point
      | Option.none => .rats [float32_min]
    let r2 := create_attr_tensor r1.2 [1] pad_input.dtype constant_data
    let constant_tensor := r2.1
    let r3 := create_transform_tensor r2.2 (pad_shape pad_input.shape pad)
      pad_input.dtype pad_input.data pad_input.quantization
    let pad_out := r3.1
    let ops3 := ops2.set fill_nan_index
      { ops2.getD fill_nan_index default with
        inputs := (ops2.getD fill_nan_index default).inputs.set 0 pad_out }
    let pad_op : Op := ⟨.Padv2, [pad_input, pad_tensor, constant_tensor], [pad_out],
      Option.none, Option.none⟩
    Except.ok (ops3.insertIdx fill_nan_index pad_op, r3.2)

/-- The op list of a successful `handle_padding` run (empty on error). -/
def resultOps (r : Except String (List Op × Converter)) : List Op :=
  match r with
  | .ok x => x.1
  | .error _ => []

/-- The external graph builder seen by the core: a name → tensor map and the
op list grown by `add_operator`. -/
structure GraphConverter where
  tensor_map : List (String × Tensor)
  ops : List Op

/-- Embedding of `find_or_create_input` (base.py lines 161-170): prefer the registered
binding for the name; else materialize a buffer-backed binding from the
concrete input value. -/
def find_or_create_input (c : Converter) (idx : ℕ) (g : GraphConverter) :
    Tensor × Converter :=
  let name := c.input_names.getD idx ("")
  match g.tensor_map.lookup name with
  | some t => (t, c)
  | Option.none =>
    let tensor := c.input_tensors.getD idx default
    (⟨c.nextId, name, tensor.shape, tensor.dtype, true, Option.none, .rats tensor.vals⟩,
     { c with nextId := c.nextId + 1 })

/-- Embedding of `to_tfl_tensors` (base.py lines 143-159) in the default-argument form
used by `passthrough` (`has_buffers=None`, `graph_converter=None`,
`non_existent_as_buffer=False`): each name/value pair becomes a fresh
tensor with `has_buffer = False`. -/
def to_tfl_tensors (c : Converter) (names : List String) (tensors : List RawTensor) :
    List Tensor × Converter :=
  (names.zip tensors).foldl
    (fun acc nt =>
      (acc.1 ++ [⟨acc.2.nextId, nt.1, nt.2.shape, nt.2.dtype, false, Option.none,
        .rats nt.2.vals⟩],
       { acc.2 with nextId := acc.2.nextId + 1 }))
    ([], c)

/-- Embedding of `passthrough` (base.py lines 232-240): after the arity
assert, for each output index find-or-create the input binding, create a
shape attr tensor, and add one reshape op whose target is the input
tensor's shape. -/
def passthrough (c : Converter) (g : GraphConverter) :
    Except String (GraphConverter × Converter) :=
  if ¬ c.output_tensors.length ≤ c.input_tensors.length then
    .error ("assert len(self.input_tensors) >= len(self.output_tensors)")
  else
    .ok ((List.range c.output_tensors.length).foldl
      (fun acc i =>
        let input_tensor := acc.2.input_tensors.getD i default
        let r1 := find_or_create_input acc.2 i acc.1
        let r2 := create_attr_tensor r1.2 [input_tensor.shape.length] .int32
          (.ints (input_tensor.shape.map (fun n => (n : ℤ))))
        let r3 := to_tfl_tensors r2.2 acc.2.output_names acc.2.output_tensors
        let op : Op := ⟨.Reshape, [r1.1, r2.1], r3.1, Option.none,
          some input_tensor.shape⟩
        ({ acc.1 with ops := acc.1.ops ++ [op] }, r3.2))
      (g, c))

/-- The op list of the graph builder after a successful run. -/
def resultGraphOps (r : Except String (GraphConverter × Converter)) : List Op :=
  match r with
  | .ok x => x.1.ops
  | .error _ => []

/-- Python's substring containment `needle in haystack`. -/
def pyStrContains (haystack needle : String) : Bool :=
  (List.range (haystack.data.length + 1)).any
    (fun i => List.isPrefixOf needle.data (haystack.data.drop i))

/-- Python's `s.startswith(pre)`. -/
def pyStartsWith (s pre : String) : Bool := List.isPrefixOf pre.data s.data

/-- A torch `FunctionSchema`: its overload name and declared argument
names. -/
structure FunctionSchema where
  overload_name : String
  arguments : List String
deriving DecidableEq, Inhabited

/-- Embedding of `fetch_annotated_args` (base.py lines 63-83).  The schema
list produced by the external `torch._C._jit_get_schemas_for_operator` is a
parameter.  Note the source's filter is `'name' in schema.overload_name` —
Python *substring containment* — followed by the argument-count check; the
failed `assert len(candidates) > 0` is the modelled fatal error, and with
several candidates the names are taken from `candidates[0]`. -/
def fetch_annotated_args (kind : String) (input_tensor_count : ℕ)
    (output_name0 : String) (schemas : List FunctionSchema) :
    Except String (List (String × ℕ)) :=
  if input_tensor_count = 0 then .ok []
  else if pyStartsWith kind ("prim::") then .ok []
  else
    let candidates := schemas.filter (fun s =>
      !(pyStrContains s.overload_name ("name")) &&
        s.arguments.length == input_tensor_count)
    if candidates.length = 0 then
      .error ("Cannot find the schema for " ++ kind ++ "(" ++ output_name0 ++ ")")
    else .ok ((candidates.getD 0 default).arguments.zip (List.range input_tensor_count))

/-- The claim's reading of the overload filter: exclude every
overload-qualified schema, i.e. every schema whose overload name is
nonempty. -/
def fetch_annotated_args_claim (kind : String) (input_tensor_count : ℕ)
    (output_name0 : String) (schemas : List FunctionSchema) :
    Except String (List (String × ℕ)) :=
  if input_tensor_count = 0 then .ok []
  else if pyStartsWith kind ("prim::") then .ok []
  else
    let candidates := schemas.filter (fun s =>
      (s.overload_name == "") && s.arguments.length == input_tensor_count)
    if candidates.length = 0 then
      .error ("Cannot find the schema for " ++ kind ++ "(" ++ output_name0 ++ ")")
    else .ok ((candidates.getD 0 default).arguments.zip (List.range input_tensor_count))

theorem mapRange_getD {α : Type} (f : ℕ → α) (n i : ℕ) (d : α) (h : i < n) :
    ((List.range n).map f).getD i d = f i := by
  rw [List.getD_eq_getElem?_getD, List.getElem?_map, List.getElem?_range h]
  rfl

/-- Pointwise description of `get_pool_ceil_padding`: entry `i` is the
per-dimension pure function of the corresponding size/padding/kernel/stride. -/
theorem get_pool_ceil_padding_getD (sizes kernel_size stride padding : List ℤ)
    (i : ℕ) (h : i < padding.length) :
    (get_pool_ceil_padding sizes kernel_size stride padding).getD i 0 =
      ceil_extra_pad_spec
        ((sizes.drop (sizes.length - padding.length)).getD i 0)
        (padding.getD i 0) (kernel_size.getD i 0) (stride.getD i 0) := by
  unfold get_pool_ceil_padding
  simp only [List.length_map, List.length_range]
  rw [mapRange_getD _ _ _ _ h, mapRange_getD _ _ _ _ h, mapRange_getD _ _ _ _ h,
    mapRange_getD _ _ _ _ h]
  unfold ceil_extra_pad_spec ceil_output_dim_spec
  rfl

theorem get_pool_ceil_padding_length (sizes kernel_size stride padding : List ℤ) :
    (get_pool_ceil_padding sizes kernel_size stride padding).length = padding.length := by
  unfold get_pool_ceil_padding
  simp

/-- C1 (amended: the source computes the output dimension with *ceiling*
division, not floor): every entry of `get_pool_ceil_padding` equals the
spec's per-dimension pure function with `out = ceil((s+2p-k)/t) + 1`,
the decrement when `(out-1)t ≥ s+p`, `extra = 0` for `t = 1` else
`k - (s + 2p - ((out-1)t + 1))`, clamped to `k-1` when `extra + 2p ≥ k`;
and the two concrete fixtures: size 5 / kernel 3 / stride 2 / padding 0
gives out 2 and extra pad 1, and size 4 / kernel 2 / stride 1 / padding 0
gives extra pad 0. -/
theorem C1_pool_ceil_padding_matches_spec (sizes kernel_size stride padding : List ℤ)
    (i : ℕ) (h : i < padding.length) :
    (get_pool_ceil_padding sizes kernel_size stride padding).getD i 0 =
      ceil_extra_pad_spec
        ((sizes.drop (sizes.length - padding.length)).getD i 0)
        (padding.getD i 0) (kernel_size.getD i 0) (stride.getD i 0) ∧
    ceil_output_dim_spec 5 0 3 2 = 2 ∧
    get_pool_ceil_padding [5] [3] [2] [0] = [1] ∧
    get_pool_ceil_padding [4] [2] [1] [0] = [0] := by
  refine ⟨get_pool_ceil_padding_getD sizes kernel_size stride padding i h, by decide,
    by decide, by decide⟩

theorem C1_witness :
    (get_pool_ceil_padding [5] [3] [2] [0]).getD 0 0 =
      ceil_extra_pad_spec (([5].drop ([5].length - [0].length) : List ℤ).getD 0 0)
        ([0].getD 0 0) ([3].getD 0 0) ([2].getD 0 0) ∧
    ceil_output_dim_spec 5 0 3 2 = 2 ∧
    get_pool_ceil_padding [5] [3] [2] [0] = [1] ∧
    get_pool_ceil_padding [4] [2] [1] [0] = [0] :=
  C1_pool_ceil_padding_matches_spec [5] [3] [2] [0] 0 (by decide)

/-- C1 counterexample to the claim as stated (floor division): at size 6,
kernel 3, stride 2, padding 0 the claim's floor formula yields extra pad 0,
while the source yields 2. -/
theorem C1_counterexample :
    floor_extra_pad_claim 6 0 3 2 = 0 ∧
    get_pool_ceil_padding [6] [3] [2] [0] = [2] ∧
    ceil_extra_pad_spec 6 0 3 2 = 2 := by
  refine ⟨by decide, by decide, by decide⟩

/-- C10: with positive kernel sizes and strides and non-negative paddings,
every entry of the extra-padding list returned by `get_pool_ceil_padding`
is at most `kernel_size[i] - 1`. -/
theorem C10_pool_ceil_padding_bounded (sizes kernel_size stride padding : List ℤ)
    (i : ℕ) (h : i < padding.length)
    (hk : 1 ≤ kernel_size.getD i 0) (hp : 0 ≤ padding.getD i 0) :
    (get_pool_ceil_padding sizes kernel_size stride padding).getD i 0 ≤
      kernel_size.getD i 0 - 1 := by
  rw [get_pool_ceil_padding_getD sizes kernel_size stride padding i h]
  unfold ceil_extra_pad_spec
  set s := (sizes.drop (sizes.length - padding.length)).getD i 0 with hs
  set p := padding.getD i 0 with hpd
  set k := kernel_size.getD i 0 with hkd
  set t := stride.getD i 0 with htd
  set out := ceil_output_dim_spec s p k t with hout
  set e := if t = 1 then 0 else k - (s + 2 * p - ((out - 1) * t + 1)) with he
  simp only
  by_cases h1 : e + 2 * p ≥ k
  · simp only [h1, if_true]
    by_cases h2 : e < k - 1
    · simp only [h2, if_true]; omega
    · simp only [h2, if_false]; omega
  · simp only [h1, if_false]
    have ht : t = 1 ∨ t ≠ 1 := em _
    rcases ht with ht | ht
    · rw [if_pos ht]; omega
    · omega

theorem C10_witness :
    (get_pool_ceil_padding [6] [3] [2] [0]).getD 0 0 ≤ ([3] : List ℤ).getD 0 0 - 1 :=
  C10_pool_ceil_padding_bounded [6] [3] [2] [0] 0 (by decide) (by decide) (by decide)

theorem log2_mul_ten_ge {m : ℚ} (hm : 0 < m) :
    Int.log 2 m + 3 ≤ Int.log 2 (m * 10) := by
  have h1 : ((2 : ℕ) : ℚ) ^ Int.log 2 m ≤ m :=
    Int.zpow_log_le_self (by norm_num) hm
  have h2 : ((2 : ℕ) : ℚ) ^ (Int.log 2 m + 3) ≤ m * 10 := by
    rw [zpow_add₀ (by norm_num : ((2 : ℕ) : ℚ) ≠ 0)]
    have h3 : ((2 : ℕ) : ℚ) ^ (3 : ℤ) = 8 := by norm_num
    rw [h3]
    nlinarith [zpow_pos (by norm_num : (0:ℚ) < ((2:ℕ):ℚ)) (Int.log 2 m)]
  exact (Int.zpow_le_iff_le_log (by norm_num) (by positivity)).mp h2

theorem qnnpack_shift_ge_32_log {input_scale output_scale w : ℚ}
    (h : 32 ≤ qnnpack_shift input_scale w output_scale) :
    127 + Int.log 2 (input_scale * w / output_scale) ≤ 94 := by
  unfold qnnpack_shift fp32_exponent_field at h
  omega

theorem rescale_fuel_bound_step {input_scale output_scale w : ℚ}
    (hi : 0 < input_scale) (ho : 0 < output_scale) (hw : 0 < w)
    (h : 32 ≤ qnnpack_shift input_scale w output_scale) :
    rescale_fuel_bound input_scale output_scale (w * 10) <
      rescale_fuel_bound input_scale output_scale w ∧
    1 ≤ rescale_fuel_bound input_scale output_scale w := by
  have hm : 0 < input_scale * w / output_scale := by positivity
  have hmul : input_scale * (w * 10) / output_scale =
      input_scale * w / output_scale * 10 := by ring
  have hlog := qnnpack_shift_ge_32_log h
  have hstep := log2_mul_ten_ge hm
  unfold rescale_fuel_bound
  rw [hmul]
  omega

theorem rescale_loop_fuel_of_lt {input_scale output_scale w : ℚ} (n : ℕ)
    (h : ¬ 32 ≤ qnnpack_shift input_scale w output_scale) :
    rescale_loop_fuel input_scale output_scale n w = w := by
  cases n with
  | zero => rfl
  | succ n => rw [rescale_loop_fuel, if_neg h]

/-- Past the fuel bound, the iterated loop body no longer depends on the
fuel: the source's `while True` loop terminates with this common value. -/
theorem rescale_loop_fuel_irrel (input_scale output_scale : ℚ)
    (hi : 0 < input_scale) (ho : 0 < output_scale) :
    ∀ n₁ n₂ w, 0 < w → rescale_fuel_bound input_scale output_scale w ≤ n₁ →
      rescale_fuel_bound input_scale output_scale w ≤ n₂ →
      rescale_loop_fuel input_scale output_scale n₁ w =
        rescale_loop_fuel input_scale output_scale n₂ w := by
  intro n₁
  induction n₁ with
  | zero =>
    intro n₂ w hw h1 h2
    by_cases hcond : 32 ≤ qnnpack_shift input_scale w output_scale
    · exact absurd h1 (by have := (rescale_fuel_bound_step hi ho hw hcond).2; omega)
    · rw [rescale_loop_fuel_of_lt 0 hcond, rescale_loop_fuel_of_lt n₂ hcond]
  | succ n ih =>
    intro n₂ w hw h1 h2
    by_cases hcond : 32 ≤ qnnpack_shift input_scale w output_scale
    · have hb := rescale_fuel_bound_step hi ho hw hcond
      obtain ⟨m, rfl⟩ : ∃ m, n₂ = m + 1 := ⟨n₂ - 1, by omega⟩
      rw [rescale_loop_fuel, if_pos hcond, rescale_loop_fuel, if_pos hcond]
      exact ih m (w * 10) (by positivity) (by omega) (by omega)
    · rw [rescale_loop_fuel_of_lt (n + 1) hcond, rescale_loop_fuel_of_lt n₂ hcond]

theorem rescale_loop_fuel_spec (input_scale output_scale : ℚ)
    (hi : 0 < input_scale) (ho : 0 < output_scale) :
    ∀ n w, 0 < w → rescale_fuel_bound input_scale output_scale w ≤ n →
      (∃ k : ℕ, rescale_loop_fuel input_scale output_scale n w = w * 10 ^ k) ∧
      qnnpack_shift input_scale (rescale_loop_fuel input_scale output_scale n w)
        output_scale < 32 := by
  intro n
  induction n with
  | zero =>
    intro w hw hle
    by_cases hcond : 32 ≤ qnnpack_shift input_scale w output_scale
    · exact absurd hle (by have := (rescale_fuel_bound_step hi ho hw hcond).2; omega)
    · rw [rescale_loop_fuel_of_lt 0 hcond]
      exact ⟨⟨0, by ring⟩, by omega⟩
  | succ n ih =>
    intro w hw hle
    by_cases hcond : 32 ≤ qnnpack_shift input_scale w output_scale
    · have hb := rescale_fuel_bound_step hi ho hw hcond
      rw [rescale_loop_fuel, if_pos hcond]
      obtain ⟨⟨k, hk⟩, hs⟩ := ih (w * 10) (by positivity) (by omega)
      exact ⟨⟨k + 1, by rw [hk]; ring⟩, hs⟩
    · rw [rescale_loop_fuel_of_lt (n + 1) hcond]
      exact ⟨⟨0, by ring⟩, by omega⟩

/-- C2: for positive input/weight/output quantization scales the rescale
loop terminates (the iteration stabilizes: every fuel at least the bound
yields the same value); the resulting weight scale is the original times
`10 ^ k` for some `k ≥ 0` (hence it never decreases), and the terminal
scale satisfies `shift < 32` for `shift = 127 + 31 - 32 - exponent(m)`
with `m` the combined multiplier `input.scale * weight.scale /
output.scale` (`exponent` being the binary32 exponent field). -/
theorem C2_rescale_weight_scale_for_qnnpack_spec (input_scale weight_scale output_scale : ℚ)
    (hi : 0 < input_scale) (hw : 0 < weight_scale) (ho : 0 < output_scale) :
    (∀ n, rescale_fuel_bound input_scale output_scale weight_scale ≤ n →
      rescale_loop_fuel input_scale output_scale n weight_scale =
        rescale_weight_scale_for_qnnpack input_scale weight_scale output_scale) ∧
    (∃ k : ℕ,
      rescale_weight_scale_for_qnnpack input_scale weight_scale output_scale =
        weight_scale * 10 ^ k) ∧
    weight_scale ≤
      rescale_weight_scale_for_qnnpack input_scale weight_scale output_scale ∧
    qnnpack_shift input_scale
      (rescale_weight_scale_for_qnnpack input_scale weight_scale output_scale)
      output_scale < 32 := by
  obtain ⟨⟨k, hk⟩, hs⟩ := rescale_loop_fuel_spec input_scale output_scale hi ho
    (rescale_fuel_bound input_scale output_scale weight_scale) weight_scale hw le_rfl
  refine ⟨fun n hn => rescale_loop_fuel_irrel input_scale output_scale hi ho n _
      weight_scale hw hn le_rfl, ⟨k, hk⟩, ?_, hs⟩
  rw [rescale_weight_scale_for_qnnpack, hk]
  have h1 : (1 : ℚ) ≤ 10 ^ k := one_le_pow₀ (by norm_num)
  nlinarith

theorem C2_witness :
    (∀ n, rescale_fuel_bound 1 1 1 ≤ n →
      rescale_loop_fuel 1 1 n 1 = rescale_weight_scale_for_qnnpack 1 1 1) ∧
    (∃ k : ℕ, rescale_weight_scale_for_qnnpack 1 1 1 = 1 * 10 ^ k) ∧
    (1 : ℚ) ≤ rescale_weight_scale_for_qnnpack 1 1 1 ∧
    qnnpack_shift 1 (rescale_weight_scale_for_qnnpack 1 1 1) 1 < 32 :=
  C2_rescale_weight_scale_for_qnnpack_spec 1 1 1 (by norm_num) (by norm_num) (by norm_num)

theorem getD_set_self {α : Type} [Inhabited α] (xs : List α) (i : ℕ) (y : α)
    (h : i < xs.length) : (xs.set i y).getD i default = y := by
  rw [List.getD_eq_getElem?_getD, List.getElem?_set_self h]
  rfl

theorem rewire_endpoints_length (ops : List Op) (input_idx output_idx : ℕ)
    (tIn tOut : Tensor) :
    (rewire_endpoints ops input_idx output_idx tIn tOut).length = ops.length := by
  unfold rewire_endpoints
  simp

theorem rewire_endpoints_head (ops : List Op) (input_idx output_idx : ℕ)
    (tIn tOut : Tensor) (h0 : ops ≠ [])
    (hidx : input_idx < (ops.getD 0 default).inputs.length) :
    ((rewire_endpoints ops input_idx output_idx tIn tOut).getD 0 default).inputs.getD
      input_idx default = tIn := by
  obtain ⟨a, l, rfl⟩ := List.exists_cons_of_ne_nil h0
  unfold rewire_endpoints
  simp only [List.getD_cons_zero, List.set_cons_zero, List.length_cons,
    Nat.add_sub_cancel]
  cases l with
  | nil =>
    simp only [List.length_nil, List.set_cons_zero, List.getD_cons_zero]
    exact getD_set_self a.inputs input_idx tIn hidx
  | cons b m =>
    simp only [List.length_cons, List.set_cons_succ, List.getD_cons_zero]
    exact getD_set_self a.inputs input_idx tIn hidx

theorem rewire_endpoints_last (ops : List Op) (input_idx output_idx : ℕ)
    (tIn tOut : Tensor) (h0 : ops ≠ [])
    (hodx : output_idx < (ops.getD (ops.length - 1) default).outputs.length) :
    ((rewire_endpoints ops input_idx output_idx tIn tOut).getD (ops.length - 1)
      default).outputs.getD output_idx default = tOut := by
  obtain ⟨a, l, rfl⟩ := List.exists_cons_of_ne_nil h0
  unfold rewire_endpoints
  simp only [List.getD_cons_zero, List.set_cons_zero, List.length_cons,
    Nat.add_sub_cancel]
  cases l with
  | nil =>
    simp only [List.length_nil, List.set_cons_zero, List.getD_cons_zero] at hodx ⊢
    exact getD_set_self _ output_idx tOut hodx
  | cons b m =>
    simp only [List.length_cons, Nat.add_sub_cancel, List.set_cons_succ,
      List.getD_cons_succ] at hodx ⊢
    rw [show ((b :: m).set m.length
        { (b :: m).getD m.length default with
          outputs := ((b :: m).getD m.length default).outputs.set output_idx tOut }).getD
        m.length default =
        { (b :: m).getD m.length default with
          outputs := ((b :: m).getD m.length default).outputs.set output_idx tOut } from
      getD_set_self _ _ _ (by simp)]
    exact getD_set_self _ output_idx tOut hodx

/-- C3: `wrap_ops_with_dequant_quants` returns `Dequantize` first, consuming
the original boundary input; `Quantize` last, producing the original
boundary output; and the bracketed ops (same number as before) have their
designated input and output rewired to the two newly created
floating-point, non-buffer transform tensors, which are distinct from both
original quantized boundary tensors (and from each other). -/
theorem C3_wrap_ops_with_dequant_quants_spec (c : Converter) (ops : List Op)
    (input_idx output_idx : ℕ) (h0 : ops ≠ [])
    (hidx : input_idx < (ops.getD 0 default).inputs.length)
    (hodx : output_idx < (ops.getD (ops.length - 1) default).outputs.length)
    (hin : ((ops.getD 0 default).inputs.getD input_idx default).id < c.nextId)
    (hout : ((ops.getD (ops.length - 1) default).outputs.getD output_idx default).id < c.nextId) :
    ∃ tIn tOut mid,
      (wrap_ops_with_dequant_quants c ops input_idx output_idx).1 =
        { kind := .Dequantize,
          inputs := [(ops.getD 0 default).inputs.getD input_idx default],
          outputs := [tIn] } :: mid ++
        [{ kind := .Quantize, inputs := [tOut],
           outputs := [(ops.getD (ops.length - 1) default).outputs.getD output_idx default] }] ∧
      mid.length = ops.length ∧
      (mid.getD 0 default).inputs.getD input_idx default = tIn ∧
      (mid.getD (ops.length - 1) default).outputs.getD output_idx default = tOut ∧
      tIn.dtype = .float32 ∧ tOut.dtype = .float32 ∧
      tIn.has_buffer = false ∧ tOut.has_buffer = false ∧
      tIn ≠ (ops.getD 0 default).inputs.getD input_idx default ∧
      tIn ≠ (ops.getD (ops.length - 1) default).outputs.getD output_idx default ∧
      tOut ≠ (ops.getD 0 default).inputs.getD input_idx default ∧
      tOut ≠ (ops.getD (ops.length - 1) default).outputs.getD output_idx default ∧
      tIn ≠ tOut := by
  refine ⟨_, _, rewire_endpoints ops input_idx output_idx _ _, rfl,
    rewire_endpoints_length _ _ _ _ _,
    rewire_endpoints_head _ _ _ _ _ h0 hidx,
    rewire_endpoints_last _ _ _ _ _ h0 hodx,
    rfl, rfl, rfl, rfl, ?_, ?_, ?_, ?_, ?_⟩ <;>
  · intro h
    have := congrArg Tensor.id h
    simp only [create_transform_tensor, get_unique_transform_name] at this
    omega

theorem C3_witness :
    ∃ tIn tOut mid,
      (wrap_ops_with_dequant_quants
        ⟨["i0"], ["o0"], [], [], 0, 0, true, 7⟩
        [⟨.Other ("f"), [⟨3, "q_in", [1], .uint8, false, Option.none, .null⟩],
          [⟨4, "q_out", [1], .uint8, false, Option.none, .null⟩], Option.none, Option.none⟩]
        0 0).1 =
        ⟨.Dequantize, [⟨3, "q_in", [1], .uint8, false, Option.none, .null⟩], [tIn],
          Option.none, Option.none⟩ :: mid ++
        [⟨.Quantize, [tOut], [⟨4, "q_out", [1], .uint8, false, Option.none, .null⟩],
          Option.none, Option.none⟩] ∧
      mid.length = 1 ∧
      (mid.getD 0 default).inputs.getD 0 default = tIn ∧
      (mid.getD 0 default).outputs.getD 0 default = tOut ∧
      tIn.dtype = .float32 ∧ tOut.dtype = .float32 ∧
      tIn.has_buffer = false ∧ tOut.has_buffer = false ∧
      tIn ≠ ⟨3, "q_in", [1], .uint8, false, Option.none, .null⟩ ∧
      tIn ≠ ⟨4, "q_out", [1], .uint8, false, Option.none, .null⟩ ∧
      tOut ≠ ⟨3, "q_in", [1], .uint8, false, Option.none, .null⟩ ∧
      tOut ≠ ⟨4, "q_out", [1], .uint8, false, Option.none, .null⟩ ∧
      tIn ≠ tOut := by
  have h := C3_wrap_ops_with_dequant_quants_spec
    ⟨["i0"], ["o0"], [], [], 0, 0, true, 7⟩
    [⟨.Other ("f"), [⟨3, "q_in", [1], .uint8, false, Option.none, .null⟩],
      [⟨4, "q_out", [1], .uint8, false, Option.none, .null⟩], Option.none, Option.none⟩]
    0 0 (by simp) (by simp) (by simp) (by simp) (by simp)
  simpa using h

theorem perm0231_symm_after_perm0312_symm (q : Fin 4) :
    perm0312.symm (perm0231.symm q) = q := by
  fin_cases q <;> rfl

/-- C4: `wrap_ops_with_nhwc_nchw_transposes` brackets the ops with a
`Transpose` carrying permutation `[0, 2, 3, 1]` before and a `Transpose`
carrying `[0, 3, 1, 2]` after; the two permutations compose to the identity
`[0, 1, 2, 3]`, so transposing a rank-4 tensor by `[0, 2, 3, 1]` and then
by `[0, 3, 1, 2]` restores the original tensor. -/
theorem C4_wrap_ops_with_nhwc_nchw_transposes_spec (c : Converter) (ops : List Op)
    (input_idx output_idx : ℕ) (h0 : ops ≠ [])
    (hidx : input_idx < (ops.getD 0 default).inputs.length)
    (hodx : output_idx < (ops.getD (ops.length - 1) default).outputs.length) :
    ∃ pFwd pBwd tIn tOut mid,
      (wrap_ops_with_nhwc_nchw_transposes c ops input_idx output_idx).1 =
        ⟨.Transpose, [(ops.getD 0 default).inputs.getD input_idx default, pFwd], [tIn],
          Option.none, Option.none⟩ :: mid ++
        [⟨.Transpose, [tOut, pBwd],
          [(ops.getD (ops.length - 1) default).outputs.getD output_idx default],
          Option.none, Option.none⟩] ∧
      pFwd.data = .ints [0, 2, 3, 1] ∧
      pBwd.data = .ints [0, 3, 1, 2] ∧
      mid.length = ops.length ∧
      (mid.getD 0 default).inputs.getD input_idx default = tIn ∧
      (mid.getD (ops.length - 1) default).outputs.getD output_idx default = tOut ∧
      perm_compose [0, 2, 3, 1] [0, 3, 1, 2] = [0, 1, 2, 3] ∧
      List.ofFn (fun i => ((perm0231 i : Fin 4) : ℤ)) = [0, 2, 3, 1] ∧
      List.ofFn (fun i => ((perm0312 i : Fin 4) : ℤ)) = [0, 3, 1, 2] ∧
      ∀ a : (Fin 4 → ℕ) → ℚ, npTranspose4 perm0312 (npTranspose4 perm0231 a) = a := by
  refine ⟨_, _, _, _, rewire_endpoints ops input_idx output_idx _ _, rfl, rfl, rfl,
    rewire_endpoints_length _ _ _ _ _,
    rewire_endpoints_head _ _ _ _ _ h0 hidx,
    rewire_endpoints_last _ _ _ _ _ h0 hodx,
    by decide, by decide, by decide, ?_⟩
  intro a
  funext idx
  unfold npTranspose4
  congr 1
  funext p
  show idx (perm0312.symm (perm0231.symm p)) = idx p
  rw [perm0231_symm_after_perm0312_symm]

theorem C4_witness :
    ∃ pFwd pBwd tIn tOut mid,
      (wrap_ops_with_nhwc_nchw_transposes
        ⟨["i0"], ["o0"], [], [], 0, 0, true, 9⟩
        [⟨.Other ("g"), [⟨5, "t_in", [1, 2, 3, 4], .float32, false, Option.none, .null⟩],
          [⟨6, "t_out", [1, 2, 3, 4], .float32, false, Option.none, .null⟩],
          Option.none, Option.none⟩] 0 0).1 =
        ⟨.Transpose, [⟨5, "t_in", [1, 2, 3, 4], .float32, false, Option.none, .null⟩, pFwd],
          [tIn], Option.none, Option.none⟩ :: mid ++
        [⟨.Transpose, [tOut, pBwd],
          [⟨6, "t_out", [1, 2, 3, 4], .float32, false, Option.none, .null⟩],
          Option.none, Option.none⟩] ∧
      pFwd.data = .ints [0, 2, 3, 1] ∧
      pBwd.data = .ints [0, 3, 1, 2] ∧
      mid.length = 1 ∧
      (mid.getD 0 default).inputs.getD 0 default = tIn ∧
      (mid.getD 0 default).outputs.getD 0 default = tOut ∧
      perm_compose [0, 2, 3, 1] [0, 3, 1, 2] = [0, 1, 2, 3] ∧
      List.ofFn (fun i => ((perm0231 i : Fin 4) : ℤ)) = [0, 2, 3, 1] ∧
      List.ofFn (fun i => ((perm0312 i : Fin 4) : ℤ)) = [0, 3, 1, 2] ∧
      ∀ a : (Fin 4 → ℕ) → ℚ, npTranspose4 perm0312 (npTranspose4 perm0231 a) = a := by
  have h := C4_wrap_ops_with_nhwc_nchw_transposes_spec
    ⟨["i0"], ["o0"], [], [], 0, 0, true, 9⟩
    [⟨.Other ("g"), [⟨5, "t_in", [1, 2, 3, 4], .float32, false, Option.none, .null⟩],
      [⟨6, "t_out", [1, 2, 3, 4], .float32, false, Option.none, .null⟩],
      Option.none, Option.none⟩] 0 0 (by simp) (by simp) (by simp)
  simpa using h

/-- C5 (code bug): the assertion `assert torch.dtype == torch.float32`
compares the dtype class itself to an instance, which is always false, so
`quantize_scalar_tensor` raises `AssertionError` on every input — including
well-formed single-element float32 tensors — instead of returning the
sign-chosen quantization parameters the claim (and the surrounding code)
describes. -/
theorem C5_quantize_scalar_tensor_always_asserts :
    quantize_scalar_tensor true ⟨[1], .float32, [0]⟩ =
      .error ("assert torch.dtype == torch.float32") ∧
    quantize_scalar_tensor true ⟨[1], .float32, [-(254 / 100)]⟩ =
      .error ("assert torch.dtype == torch.float32") ∧
    quantize_scalar_tensor false ⟨[1], .float32, [5]⟩ =
      .error ("assert torch.dtype == torch.float32") := by
  exact ⟨rfl, rfl, rfl⟩

theorem iinfoOf_min_le_max (dtype : DType) (type_info : IInfo)
    (h : iinfoOf dtype = some type_info) : type_info.min ≤ type_info.max := by
  cases dtype with
  | float32 => exact Option.noConfusion h
  | uint8 => simp only [iinfoOf] at h; cases h; norm_num
  | int8 => simp only [iinfoOf] at h; cases h; norm_num
  | int32 => simp only [iinfoOf] at h; cases h; norm_num
  | int64 => simp only [iinfoOf] at h; cases h; norm_num

/-- C6 counterexample to the claim as stated: for value 1, scale 2,
zero point 1, the source computes `round(1/2 + 1) = round(1.5) = 2`
(half to even), while the claim's `round(1/2) + 1 = 0 + 1 = 1`. -/
theorem C6_counterexample :
    quantize [1] 2 1 .uint8 = .ok ([], ⟨[2], 2, 1⟩) ∧
    quantize_claim_code 1 2 1 = 1 ∧
    roundHalfEven (1 / 2 + 1) = 2 := by
  refine ⟨?_, ?_, ?_⟩
  · norm_num [quantize, iinfoOf, roundHalfEven, round_eq, cast_clamp]
  · norm_num [quantize_claim_code, roundHalfEven, round_eq]
  · norm_num [roundHalfEven, round_eq]

/-- C6 (amended: the source rounds `value/scale + zero_point` with
round-half-to-even (`torch.round`), which differs from the claim's
`round(value/scale) + zero_point` at exact halves): for positive scale and
an integer dtype, `quantize` always returns a result — range violations
never raise; each returned code is the rounded value clamped to the dtype
range; a non-fatal warning is emitted exactly when some rounded value falls
outside the range; and when no warning is emitted the cast is lossless. -/
theorem C6_quantize_spec (vals : List ℚ) (scale : ℚ) (zero_point : ℤ)
    (dtype : DType) (type_info : IInfo) (hinfo : iinfoOf dtype = some type_info)
    (_hs : 0 < scale) :
    ∃ warns fq,
      quantize vals scale zero_point dtype = .ok (warns, fq) ∧
      fq.codes = vals.map
        (fun v => cast_clamp type_info (roundHalfEven (v / scale + zero_point))) ∧
      fq.scale = scale ∧ fq.zero_point = zero_point ∧
      (∀ z ∈ fq.codes, type_info.min ≤ z ∧ z ≤ type_info.max) ∧
      (warns ≠ [] ↔ ∃ v ∈ vals,
        type_info.max < roundHalfEven (v / scale + zero_point) ∨
        roundHalfEven (v / scale + zero_point) < type_info.min) ∧
      (warns = [] →
        fq.codes = vals.map (fun v => roundHalfEven (v / scale + zero_point))) := by
  have hmm := iinfoOf_min_le_max dtype type_info hinfo
  unfold quantize
  rw [hinfo]
  refine ⟨_, _, rfl, by rw [List.map_map]; rfl, rfl, rfl, ?_, ?_, ?_⟩
  · intro z hz
    simp only [List.map_map, List.mem_map, Function.comp] at hz
    obtain ⟨v, hv, rfl⟩ := hz
    unfold cast_clamp
    omega
  · constructor
    · intro hne
      by_cases hA : (vals.map (fun v => roundHalfEven (v / scale + zero_point))).any
          (fun z => decide (type_info.max < z))
      · obtain ⟨z, hz, hzz⟩ := List.any_eq_true.mp hA
        obtain ⟨v, hv, rfl⟩ := List.mem_map.mp hz
        exact ⟨v, hv, .inl (of_decide_eq_true hzz)⟩
      · by_cases hB : (vals.map (fun v => roundHalfEven (v / scale + zero_point))).any
            (fun z => decide (z < type_info.min))
        · obtain ⟨z, hz, hzz⟩ := List.any_eq_true.mp hB
          obtain ⟨v, hv, rfl⟩ := List.mem_map.mp hz
          exact ⟨v, hv, .inr (of_decide_eq_true hzz)⟩
        · exact absurd (by simp [hA, hB]) hne
    · rintro ⟨v, hv, h | h⟩
      · have hA : (vals.map (fun v => roundHalfEven (v / scale + zero_point))).any
            (fun z => decide (type_info.max < z)) = true :=
          List.any_eq_true.mpr ⟨_, List.mem_map.mpr ⟨v, hv, rfl⟩, decide_eq_true h⟩
        simp [hA]
      · have hB : (vals.map (fun v => roundHalfEven (v / scale + zero_point))).any
            (fun z => decide (z < type_info.min)) = true :=
          List.any_eq_true.mpr ⟨_, List.mem_map.mpr ⟨v, hv, rfl⟩, decide_eq_true h⟩
        by_cases hA : (vals.map (fun v => roundHalfEven (v / scale + zero_point))).any
            (fun z => decide (type_info.max < z)) <;> simp [hA, hB]
  · intro hnil
    have hA : (vals.map (fun v => roundHalfEven (v / scale + zero_point))).any
        (fun z => decide (type_info.max < z)) = false := by
      by_cases hA : (vals.map (fun v => roundHalfEven (v / scale + zero_point))).any
          (fun z => decide (type_info.max < z))
      · simp [hA] at hnil
      · simpa using hA
    have hB : (vals.map (fun v => roundHalfEven (v / scale + zero_point))).any
        (fun z => decide (z < type_info.min)) = false := by
      by_cases hB : (vals.map (fun v => roundHalfEven (v / scale + zero_point))).any
          (fun z => decide (z < type_info.min))
      · simp [hA, hB] at hnil
      · simpa using hB
    rw [List.map_map]
    refine List.map_congr_left (fun v hv => ?_)
    have h1 := List.any_eq_false.mp hA _ (List.mem_map.mpr ⟨v, hv, rfl⟩)
    have h2 := List.any_eq_false.mp hB _ (List.mem_map.mpr ⟨v, hv, rfl⟩)
    simp only [decide_eq_true_eq, not_lt] at h1 h2
    simp only [Function.comp]
    unfold cast_clamp
    omega

theorem C6_witness :
    ∃ warns fq,
      quantize [300, -5] 1 0 .uint8 = .ok (warns, fq) ∧
      fq.codes = [300, -5].map
        (fun v => cast_clamp ⟨0, 255⟩ (roundHalfEven (v / 1 + 0))) ∧
      fq.scale = 1 ∧ fq.zero_point = 0 ∧
      (∀ z ∈ fq.codes, (⟨0, 255⟩ : IInfo).min ≤ z ∧ z ≤ (⟨0, 255⟩ : IInfo).max) ∧
      (warns ≠ [] ↔ ∃ v ∈ [(300 : ℚ), -5],
        (⟨0, 255⟩ : IInfo).max < roundHalfEven (v / 1 + 0) ∨
        roundHalfEven (v / 1 + 0) < (⟨0, 255⟩ : IInfo).min) ∧
      (warns = [] →
        fq.codes = [300, -5].map (fun v => roundHalfEven (v / 1 + 0))) :=
  C6_quantize_spec [300, -5] 1 0 .uint8 ⟨0, 255⟩ rfl (by norm_num)

/-- C7 (amended: the second, fill-value pad op is sized per spatial
dimension by the extra ceil-padding amount *plus the base padding* — the
source adds `padding` to the `get_pool_ceil_padding` result before building
the pad — and its fill value is the most negative finite float32 when the
padded tensor is unquantized, and a zero-code fake-quant constant when
quantized): with `ceil_mode` set and the divisibility recomputation showing
the naive padding under-covers the window, a non-max-pool windowed op is a
fatal assertion; for max-pool, a `Padv2` op is inserted after the base pad
(directly at the pad position when there is no base pad). -/
theorem C7_handle_padding_ceil_spec (c : Converter) (pad_h pad_w : ℕ)
    (op0 op1 : Op) (rest : List Op) (pool : PoolParams)
    (hpool : op1.pool = some pool)
    (hcover : windows_fit_evenly
      [((op0.inputs.getD 0 default).shape.getD 2 0 : ℤ),
       ((op0.inputs.getD 0 default).shape.getD 3 0 : ℤ)]
      [(pad_h : ℤ), (pad_w : ℤ)]
      [pool.filterHeight, pool.filterWidth]
      [pool.strideH, pool.strideW] = false) :
    (op1.kind ≠ .MaxPool2d →
      handle_padding c pad_h pad_w 1 (op0 :: op1 :: rest) true =
        .error ("ceil_mode=False for AvgPool not supported")) ∧
    (op1.kind = .MaxPool2d →
      ∀ e0 e1, get_pool_ceil_padding
          (intShape (op0.inputs.getD 0 default).shape)
          [pool.filterHeight, pool.filterWidth] [pool.strideH, pool.strideW]
          [(pad_h : ℤ), (pad_w : ℤ)] = [e0, e1] →
      (handle_padding c pad_h pad_w 1 (op0 :: op1 :: rest) true).isOk = true ∧
      ((resultOps (handle_padding c pad_h pad_w 1 (op0 :: op1 :: rest) true)).getD
          (if 0 < pad_h + pad_w then 2 else 1) default).kind = .Padv2 ∧
      (((resultOps (handle_padding c pad_h pad_w 1 (op0 :: op1 :: rest) true)).getD
          (if 0 < pad_h + pad_w then 2 else 1) default).inputs.getD 1 default).data =
        .ints [0, 0, 0, e0 + (pad_h : ℤ), 0, e1 + (pad_w : ℤ), 0, 0] ∧
      ((((resultOps (handle_padding c pad_h pad_w 1 (op0 :: op1 :: rest) true)).getD
          (if 0 < pad_h + pad_w then 2 else 1) default).inputs.getD 0
            default).quantization = Option.none →
        (((resultOps (handle_padding c pad_h pad_w 1 (op0 :: op1 :: rest) true)).getD
          (if 0 < pad_h + pad_w then 2 else 1) default).inputs.getD 2 default).data =
          .rats [float32_min]) ∧
      (∀ q, (((resultOps (handle_padding c pad_h pad_w 1 (op0 :: op1 :: rest) true)).getD
          (if 0 < pad_h + pad_w then 2 else 1) default).inputs.getD 0
            default).quantization = some q →
        (((resultOps (handle_padding c pad_h pad_w 1 (op0 :: op1 :: rest) true)).getD
          (if 0 < pad_h + pad_w then 2 else 1) default).inputs.getD 2 default).data =
          .fakeQuant [0] q.scale q.zero_point) ∧
      (0 < pad_h + pad_w →
        ((resultOps (handle_padding c pad_h pad_w 1 (op0 :: op1 :: rest) true)).getD 1
          default).kind = .Pad ∧
        (resultOps (handle_padding c pad_h pad_w 1 (op0 :: op1 :: rest) true)).length =
          rest.length + 4) ∧
      (pad_h + pad_w = 0 →
        (resultOps (handle_padding c pad_h pad_w 1 (op0 :: op1 :: rest) true)).length =
          rest.length + 3)) := by
  simp only [List.getD_eq_getElem?_getD] at hcover
  constructor
  · intro hkind
    simp [handle_padding, hpool, hcover, hkind, bind, Except.bind]
  · intro hkind e0 e1 he
    simp only [List.getD_eq_getElem?_getD] at he
    have hrw : handle_padding c pad_h pad_w 1 (op0 :: op1 :: rest) true =
        handle_padding c pad_h pad_w 1 (op0 :: op1 :: rest) true := rfl
    by_cases hpos : 0 < pad_h + pad_w
    · refine ⟨?_, ?_, ?_, ?_, ?_, ?_, ?_⟩
      · simp [handle_padding, resultOps, hpool, hcover, hkind, he, hpos,
          bind, Except.bind, List.set_cons_zero, List.set_cons_succ,
          List.insertIdx_succ_cons, List.insertIdx_zero, Except.isOk,
          create_transform_tensor, create_attr_tensor,
          get_unique_transform_name, get_unique_attr_name]
        try rfl
      · simp [handle_padding, resultOps, hpool, hcover, hkind, he, hpos,
          bind, Except.bind, List.set_cons_zero, List.set_cons_succ,
          List.insertIdx_succ_cons, List.insertIdx_zero, Except.isOk,
          create_transform_tensor, create_attr_tensor,
          get_unique_transform_name, get_unique_attr_name]
      · simp [handle_padding, resultOps, hpool, hcover, hkind, he, hpos,
          bind, Except.bind, List.set_cons_zero, List.set_cons_succ,
          List.insertIdx_succ_cons, List.insertIdx_zero, Except.isOk,
          create_transform_tensor, create_attr_tensor,
          get_unique_transform_name, get_unique_attr_name]
      · simp [handle_padding, resultOps, hpool, hcover, hkind, he, hpos,
          bind, Except.bind, List.set_cons_zero, List.set_cons_succ,
          List.insertIdx_succ_cons, List.insertIdx_zero, Except.isOk,
          create_transform_tensor, create_attr_tensor,
          get_unique_transform_name, get_unique_attr_name]
        try (intro hq; simp [hq])
      · simp [handle_padding, resultOps, hpool, hcover, hkind, he, hpos,
          bind, Except.bind, List.set_cons_zero, List.set_cons_succ,
          List.insertIdx_succ_cons, List.insertIdx_zero, Except.isOk,
          create_transform_tensor, create_attr_tensor,
          get_unique_transform_name, get_unique_attr_name]
        try (intro q hq; simp [hq])
      · simp [handle_padding, resultOps, hpool, hcover, hkind, he, hpos,
          bind, Except.bind, List.set_cons_zero, List.set_cons_succ,
          List.insertIdx_succ_cons, List.insertIdx_zero, Except.isOk,
          create_transform_tensor, create_attr_tensor,
          get_unique_transform_name, get_unique_attr_name]
        try omega
      · simp [handle_padding, resultOps, hpool, hcover, hkind, he, hpos,
          bind, Except.bind, List.set_cons_zero, List.set_cons_succ,
          List.insertIdx_succ_cons, List.insertIdx_zero, Except.isOk,
          create_transform_tensor, create_attr_tensor,
          get_unique_transform_name, get_unique_attr_name]
        try omega
    · refine ⟨?_, ?_, ?_, ?_, ?_, ?_, ?_⟩
      · simp [handle_padding, resultOps, hpool, hcover, hkind, he, hpos,
          bind, Except.bind, List.set_cons_zero, List.set_cons_succ,
          List.insertIdx_succ_cons, List.insertIdx_zero, Except.isOk,
          create_transform_tensor, create_attr_tensor,
          get_unique_transform_name, get_unique_attr_name]
        try rfl
      · simp [handle_padding, resultOps, hpool, hcover, hkind, he, hpos,
          bind, Except.bind, List.set_cons_zero, List.set_cons_succ,
          List.insertIdx_succ_cons, List.insertIdx_zero, Except.isOk,
          create_transform_tensor, create_attr_tensor,
          get_unique_transform_name, get_unique_attr_name]
      · simp [handle_padding, resultOps, hpool, hcover, hkind, he, hpos,
          bind, Except.bind, List.set_cons_zero, List.set_cons_succ,
          List.insertIdx_succ_cons, List.insertIdx_zero, Except.isOk,
          create_transform_tensor, create_attr_tensor,
          get_unique_transform_name, get_unique_attr_name]
      · simp [handle_padding, resultOps, hpool, hcover, hkind, he, hpos,
          bind, Except.bind, List.set_cons_zero, List.set_cons_succ,
          List.insertIdx_succ_cons, List.insertIdx_zero, Except.isOk,
          create_transform_tensor, create_attr_tensor,
          get_unique_transform_name, get_unique_attr_name]
        try (intro hq; simp [hq])
      · simp [handle_padding, resultOps, hpool, hcover, hkind, he, hpos,
          bind, Except.bind, List.set_cons_zero, List.set_cons_succ,
          List.insertIdx_succ_cons, List.insertIdx_zero, Except.isOk,
          create_transform_tensor, create_attr_tensor,
          get_unique_transform_name, get_unique_attr_name]
        try (intro q hq; simp [hq])
      · simp [handle_padding, resultOps, hpool, hcover, hkind, he, hpos,
          bind, Except.bind, List.set_cons_zero, List.set_cons_succ,
          List.insertIdx_succ_cons, List.insertIdx_zero, Except.isOk,
          create_transform_tensor, create_attr_tensor,
          get_unique_transform_name, get_unique_attr_name]
        try omega
      · simp [handle_padding, resultOps, hpool, hcover, hkind, he, hpos,
          bind, Except.bind, List.set_cons_zero, List.set_cons_succ,
          List.insertIdx_succ_cons, List.insertIdx_zero, Except.isOk,
          create_transform_tensor, create_attr_tensor,
          get_unique_transform_name, get_unique_attr_name]
        try omega

/-- C7 counterexample to the claim as stated: input 5×5, kernel 2, stride 2,
base padding 1 — the extra ceil-padding amount per dimension is 0, yet the
inserted `Padv2` op pads by 1 (extra plus base padding) on each spatial
dimension, so the fill pad is not "sized by the extra ceil-padding
amount". -/
theorem C7_counterexample :
    (handle_padding ⟨["i0"], ["o0"], [], [], 0, 0, true, 10⟩ 1 1 1
      [⟨.Other ("s"), [⟨1, "x", [1, 1, 5, 5], .float32, false, Option.none, .null⟩],
        [⟨2, "y", [1, 1, 5, 5], .float32, false, Option.none, .null⟩],
        Option.none, Option.none⟩,
       ⟨.MaxPool2d, [⟨2, "y", [1, 1, 5, 5], .float32, false, Option.none, .null⟩],
        [⟨3, "z", [1, 1, 3, 3], .float32, false, Option.none, .null⟩],
        some ⟨2, 2, 2, 2⟩, Option.none⟩] true).isOk = true ∧
    ((resultOps (handle_padding ⟨["i0"], ["o0"], [], [], 0, 0, true, 10⟩ 1 1 1
      [⟨.Other ("s"), [⟨1, "x", [1, 1, 5, 5], .float32, false, Option.none, .null⟩],
        [⟨2, "y", [1, 1, 5, 5], .float32, false, Option.none, .null⟩],
        Option.none, Option.none⟩,
       ⟨.MaxPool2d, [⟨2, "y", [1, 1, 5, 5], .float32, false, Option.none, .null⟩],
        [⟨3, "z", [1, 1, 3, 3], .float32, false, Option.none, .null⟩],
        some ⟨2, 2, 2, 2⟩, Option.none⟩] true)).getD 2 default).kind = .Padv2 ∧
    (((resultOps (handle_padding ⟨["i0"], ["o0"], [], [], 0, 0, true, 10⟩ 1 1 1
      [⟨.Other ("s"), [⟨1, "x", [1, 1, 5, 5], .float32, false, Option.none, .null⟩],
        [⟨2, "y", [1, 1, 5, 5], .float32, false, Option.none, .null⟩],
        Option.none, Option.none⟩,
       ⟨.MaxPool2d, [⟨2, "y", [1, 1, 5, 5], .float32, false, Option.none, .null⟩],
        [⟨3, "z", [1, 1, 3, 3], .float32, false, Option.none, .null⟩],
        some ⟨2, 2, 2, 2⟩, Option.none⟩] true)).getD 2 default).inputs.getD 1
      default).data = .ints [0, 0, 0, 1, 0, 1, 0, 0] ∧
    get_pool_ceil_padding [1, 1, 5, 5] [2, 2] [2, 2] [1, 1] = [0, 0] ∧
    TensorData.ints [0, 0, 0, 1, 0, 1, 0, 0] ≠
      TensorData.ints [0, 0, 0, 0, 0, 0, 0, 0] := by
  refine ⟨rfl, rfl, rfl, by decide, by decide⟩

theorem C7_witness :
    (handle_padding ⟨["i0"], ["o0"], [], [], 0, 0, true, 20⟩ 0 0 1
      [⟨.Other ("s"), [⟨11, "a", [1, 1, 6, 6], .float32, false, Option.none, .null⟩],
        [⟨12, "b", [1, 1, 6, 6], .float32, false, Option.none, .null⟩],
        Option.none, Option.none⟩,
       ⟨.MaxPool2d, [⟨12, "b", [1, 1, 6, 6], .float32, false, Option.none, .null⟩],
        [⟨13, "c", [1, 1, 3, 3], .float32, false, Option.none, .null⟩],
        some ⟨3, 3, 2, 2⟩, Option.none⟩] true).isOk = true ∧
    ((resultOps (handle_padding ⟨["i0"], ["o0"], [], [], 0, 0, true, 20⟩ 0 0 1
      [⟨.Other ("s"), [⟨11, "a", [1, 1, 6, 6], .float32, false, Option.none, .null⟩],
        [⟨12, "b", [1, 1, 6, 6], .float32, false, Option.none, .null⟩],
        Option.none, Option.none⟩,
       ⟨.MaxPool2d, [⟨12, "b", [1, 1, 6, 6], .float32, false, Option.none, .null⟩],
        [⟨13, "c", [1, 1, 3, 3], .float32, false, Option.none, .null⟩],
        some ⟨3, 3, 2, 2⟩, Option.none⟩] true)).getD 1 default).kind = .Padv2 ∧
    (((resultOps (handle_padding ⟨["i0"], ["o0"], [], [], 0, 0, true, 20⟩ 0 0 1
      [⟨.Other ("s"), [⟨11, "a", [1, 1, 6, 6], .float32, false, Option.none, .null⟩],
        [⟨12, "b", [1, 1, 6, 6], .float32, false, Option.none, .null⟩],
        Option.none, Option.none⟩,
       ⟨.MaxPool2d, [⟨12, "b", [1, 1, 6, 6], .float32, false, Option.none, .null⟩],
        [⟨13, "c", [1, 1, 3, 3], .float32, false, Option.none, .null⟩],
        some ⟨3, 3, 2, 2⟩, Option.none⟩] true)).getD 1 default).inputs.getD 1
      default).data = .ints [0, 0, 0, 2, 0, 2, 0, 0] := by
  have h := C7_handle_padding_ceil_spec ⟨["i0"], ["o0"], [], [], 0, 0, true, 20⟩ 0 0
    ⟨.Other ("s"), [⟨11, "a", [1, 1, 6, 6], .float32, false, Option.none, .null⟩],
      [⟨12, "b", [1, 1, 6, 6], .float32, false, Option.none, .null⟩],
      Option.none, Option.none⟩
    ⟨.MaxPool2d, [⟨12, "b", [1, 1, 6, 6], .float32, false, Option.none, .null⟩],
      [⟨13, "c", [1, 1, 3, 3], .float32, false, Option.none, .null⟩],
      some ⟨3, 3, 2, 2⟩, Option.none⟩ [] ⟨3, 3, 2, 2⟩ rfl (by decide)
  have h2 := h.2 rfl 2 2 (by decide)
  refine ⟨h2.1, ?_, ?_⟩
  · have := h2.2.1
    simpa using this
  · have := h2.2.2.1
    simpa using this

theorem getElem?_append_length {α : Type} (l : List α) (x : α) :
    (l ++ [x])[l.length]? = some x := by
  rw [List.getElem?_append_right le_rfl]
  simp

/-- C8: for a converter with a single output whose shape equals the input's
shape (and the asserted arity), `passthrough` succeeds and emits exactly one
op; that op is a reshape and its target shape equals the input tensor's
shape (equivalently, the common shape). -/
theorem C8_passthrough_single_reshape (c : Converter) (g : GraphConverter)
    (hlen1 : c.output_tensors.length = 1)
    (harity : 1 ≤ c.input_tensors.length)
    (hshape : (c.input_tensors.getD 0 default).shape =
      (c.output_tensors.getD 0 default).shape) :
    (passthrough c g).isOk = true ∧
    (resultGraphOps (passthrough c g)).length = g.ops.length + 1 ∧
    ((resultGraphOps (passthrough c g)).getD g.ops.length default).kind = .Reshape ∧
    ((resultGraphOps (passthrough c g)).getD g.ops.length default).reshapeTarget =
      some ((c.input_tensors.getD 0 default).shape) ∧
    ((resultGraphOps (passthrough c g)).getD g.ops.length default).reshapeTarget =
      some ((c.output_tensors.getD 0 default).shape) := by
  have hle : c.output_tensors.length ≤ c.input_tensors.length := by omega
  have hne : c.input_tensors ≠ [] := by
    intro hnil
    rw [hnil] at harity
    simp at harity
  simp only [List.getD_eq_getElem?_getD] at hshape
  refine ⟨?_, ?_, ?_, ?_, ?_⟩ <;>
    simp [passthrough, resultGraphOps, hle, hlen1, hne, Except.isOk,
      List.range_succ, getElem?_append_length]
  · rfl
  · rw [hshape, List.getElem?_eq_getElem (by omega)]
    rfl

theorem C8_witness :
    (passthrough ⟨["i"], ["o"], [⟨[2, 3], .float32, []⟩], [⟨[2, 3], .float32, []⟩],
      0, 0, true, 0⟩ ⟨[], []⟩).isOk = true ∧
    (resultGraphOps (passthrough ⟨["i"], ["o"], [⟨[2, 3], .float32, []⟩],
      [⟨[2, 3], .float32, []⟩], 0, 0, true, 0⟩ ⟨[], []⟩)).length = 1 ∧
    ((resultGraphOps (passthrough ⟨["i"], ["o"], [⟨[2, 3], .float32, []⟩],
      [⟨[2, 3], .float32, []⟩], 0, 0, true, 0⟩ ⟨[], []⟩)).getD 0 default).kind =
      .Reshape ∧
    ((resultGraphOps (passthrough ⟨["i"], ["o"], [⟨[2, 3], .float32, []⟩],
      [⟨[2, 3], .float32, []⟩], 0, 0, true, 0⟩ ⟨[], []⟩)).getD 0
      default).reshapeTarget = some [2, 3] := by
  have h := C8_passthrough_single_reshape
    ⟨["i"], ["o"], [⟨[2, 3], .float32, []⟩], [⟨[2, 3], .float32, []⟩], 0, 0, true, 0⟩
    ⟨[], []⟩ rfl (by decide) rfl
  exact ⟨h.1, by simpa using h.2.1, by simpa using h.2.2.1, by simpa using h.2.2.2.1⟩

/-- C9 counterexample to the claim as stated: a schema whose overload name
is `"Tensor"` is overload-qualified, but the source keeps it (the filter
only drops overload names containing the substring `"name"`), binding its
argument names, while the claim's reading would find zero candidates and
fail fatally. -/
theorem C9_counterexample :
    fetch_annotated_args ("aten::add") 2 ("out")
      [⟨"Tensor", ["self", "other"]⟩] = .ok [("self", 0), ("other", 1)] ∧
    fetch_annotated_args_claim ("aten::add") 2 ("out")
      [⟨"Tensor", ["self", "other"]⟩] =
      .error ("Cannot find the schema for aten::add(out)") := by
  exact ⟨rfl, rfl⟩

/-- C9 (amended: the filter excludes schemas whose overload name contains
the substring `"name"`, not every overload-qualified schema): with a
positive input count and a non-`prim::` kind, `fetch_annotated_args` fails
fatally exactly when no schema passes the substring-and-arity filter, and
otherwise deterministically binds the first passing schema's argument names
to the input positions. -/
theorem C9_fetch_annotated_args_spec (kind : String) (n : ℕ) (out0 : String)
    (schemas : List FunctionSchema) (hn : n ≠ 0)
    (hk : pyStartsWith kind ("prim::") = false) :
    (fetch_annotated_args kind n out0 schemas =
        .error ("Cannot find the schema for " ++ kind ++ "(" ++ out0 ++ ")") ↔
      schemas.filter (fun s =>
        !(pyStrContains s.overload_name ("name")) && s.arguments.length == n) = []) ∧
    (∀ s, (schemas.filter (fun s =>
        !(pyStrContains s.overload_name ("name")) &&
          s.arguments.length == n)).head? = some s →
      fetch_annotated_args kind n out0 schemas =
        .ok (s.arguments.zip (List.range n))) := by
  unfold fetch_annotated_args
  rw [if_neg hn, if_neg (by simp [hk])]
  cases hfil : schemas.filter (fun s =>
      !(pyStrContains s.overload_name ("name")) && s.arguments.length == n) with
  | nil => simp [hfil]
  | cons a l => simp [hfil]

theorem C9_witness :
    (fetch_annotated_args ("aten::relu") 1 ("o")
        [⟨"", ["self"]⟩, ⟨"names", ["self"]⟩] =
        .error ("Cannot find the schema for " ++ "aten::relu" ++ "(" ++ "o" ++ ")") ↔
      ([⟨"", ["self"]⟩, ⟨"names", ["self"]⟩] : List FunctionSchema).filter (fun s =>
        !(pyStrContains s.overload_name ("name")) && s.arguments.length == 1) = []) ∧
    fetch_annotated_args ("aten::relu") 1 ("o")
      [⟨"", ["self"]⟩, ⟨"names", ["self"]⟩] = .ok (["self"].zip (List.range 1)) := by
  have h := C9_fetch_annotated_args_spec ("aten::relu") 1 ("o")
    [⟨"", ["self"]⟩, ⟨"names", ["self"]⟩] (by decide) (by decide)
  exact ⟨h.1, h.2 ⟨"", ["self"]⟩ rfl⟩

end TinyNN
